import Mathlib

/-!
Verification development for `pan_ssh_ciphers.py`, a single-file workflow
that audits and remediates the SSH cipher configuration of a firewall's
`mgmt` and `ha` services and escalates to a full system restart when any
service needed a change.

The Python module is shallowly embedded as follows.

* Device interaction (`fw.xapi.get`, `fw.xapi.set`, `fw.commit`, `fw.op`,
  and the `firewall.Firewall` constructor reached through
  `get_fw_connection`) is external-collaborator behaviour, so a run is
  parameterised by a `World` that scripts each response.  Every device
  call is also recorded as an `Event`, so theorems can speak about which
  writes, commits and operational commands a run performs.
* XML documents returned by the device are modelled by `XmlElem`, with
  the two `ElementTree` access patterns the script uses (`findall` on a
  child-tag path and on `"."`, and `find`) given by `selectPath`.
* Python exceptions become the `PyErr` error type threaded through
  `Except`; `print` calls are pure formatting and are dropped.
* The module imports are `import sys`, `import time`, `import config` and
  three `from pandevice import ...` lines, so the set of module-level
  names that are actually bound is `moduleBoundNames`.  The `except`
  clause of `check_device_up` names `pandevice.errors.PanURLError`;
  evaluating that handler expression looks up the name `pandevice`,
  which is modelled by `exceptNameLookup`.
-/

/-- Python exception values that can arise in the workflow. -/
inductive PyErr where
  | panURLError : PyErr
  | nameError : String → PyErr
  | attributeError : String → PyErr
  | deviceError : String → PyErr
  | scriptExhausted : PyErr
  deriving Repr, DecidableEq

deriving instance DecidableEq for Except

/-- An XML element as exposed by `xml.etree.ElementTree`: a tag, an
attribute dictionary, optional text, and a list of child elements. -/
inductive XmlElem where
  | elem : String → List (String × String) → Option String → List XmlElem → XmlElem

/-- The tag name of an element. -/
def XmlElem.tag : XmlElem → String
  | .elem t _ _ _ => t

/-- The attribute dictionary of an element. -/
def XmlElem.attrib : XmlElem → List (String × String)
  | .elem _ a _ _ => a

/-- The text of an element. -/
def XmlElem.text : XmlElem → Option String
  | .elem _ _ tx _ => tx

/-- The child elements of an element. -/
def XmlElem.children : XmlElem → List XmlElem
  | .elem _ _ _ c => c

/-- ElementTree path selection for a plain chain of child-tag steps:
starting from a list of context nodes, each step keeps the children whose
tag matches that step.  `findall('./a/b')` on `x` is
`selectPath [x] ["a", "b"]`, `findall('.')` is `selectPath [x] []`, and a
trailing slash (`findall('./a/b/')`) takes `XmlElem.children` of every
match. -/
def selectPath : List XmlElem → List String → List XmlElem
  | xs, [] => xs
  | xs, t :: ts =>
      selectPath (xs.flatMap (fun x => x.children.filter (fun c => XmlElem.tag c = t))) ts

/-- The messages field of the dictionary returned by `fw.commit`: the
script distinguishes a single message from a list of messages. -/
inductive CommitMessages where
  | single : String → CommitMessages
  | several : List String → CommitMessages
  deriving Repr, DecidableEq

/-- A device interaction performed by the script, in the order performed.
`connectAttempt` records one evaluation of `firewall.Firewall(...)` inside
`get_fw_connection`; the other constructors record `fw.xapi.get`,
`fw.xapi.set`, `fw.commit` (with its `sync` flag), `fw.op`, and
`time.sleep`. -/
inductive Event where
  | connectAttempt : Event
  | getOp : String → Event
  | setOp : String → String → Event
  | commitOp : Bool → String → Event
  | opCmd : String → Event
  | sleep : Nat → Event
  deriving Repr, DecidableEq

/-- The scripted behaviour of the device and of the connection library:
responses to configuration reads (by xpath), configuration writes (by
xpath and element), commits (by sync flag and command), operational
commands (by command), and the outcomes of successive reconnection
attempts inside `check_device_up` (`true` = the attempt succeeds,
`false` = it raises `PanURLError`). -/
structure World where
  getResp : String → Except PyErr XmlElem
  setResp : String → String → Except PyErr XmlElem
  commitResp : Bool → String → Except PyErr (Option CommitMessages)
  opResp : String → Except PyErr XmlElem
  connectOutcomes : List Bool

/-- The module-level names bound by the import statements of
`pan_ssh_ciphers.py` (`import sys`, `import time`, `import config`,
`from pandevice import base`, `from pandevice import firewall`,
`from pandevice import errors`).  Note that a `from pandevice import ...`
statement does not bind the name `pandevice` itself. -/
def moduleBoundNames : List String :=
  ["sys", "time", "config", "base", "firewall", "errors"]

/-- Evaluating the handler expression of an `except` clause that starts
with the given module name: if the name is bound at module level the
handler type is produced (and here it always matches the raised
`PanURLError`); an unbound name raises `NameError` at handling time. -/
def exceptNameLookup (n : String) : Except PyErr Bool :=
  if moduleBoundNames.contains n then Except.ok true
  else Except.error (PyErr.nameError n)

/-- `service_list` from `main`. -/
def service_list : List String := ["mgmt", "ha"]

/-- `cipher_list` from `main`: the fixed desired policy of 8 ciphers. -/
def cipher_list : List String :=
  ["aes128-cbc", "aes192-cbc", "aes256-cbc", "aes128-ctr",
   "aes192-ctr", "aes256-ctr", "aes128-gcm", "aes256-gcm"]

/-- The `base_xpath` string built in `check_ciphers` and `set_ciphers`. -/
def base_xpath (service : String) : String :=
  "/config/devices/entry[@name=\x27localhost.localdomain\x27]" ++
    "/deviceconfig/system/ssh/ciphers/" ++ service

/-- The `entry_element` string built in `set_ciphers`. -/
def entry_element (cipher : String) : String := "<" ++ cipher ++ "/>"

/-- The commit command built in `commit_config`. -/
def commitCmd : String :=
  "<commit><description>SSH Ciphers Commit</description></commit>"

/-- The operational command built in `restart_service`. -/
def serviceRestartCmd (service : String) : String :=
  "<set><ssh><service-restart><" ++ service ++ "></" ++ service ++
    "></service-restart></ssh></set>"

/-- The operational command built in `restart_system`. -/
def systemRestartCmd : String :=
  "<request><restart><system></system></restart></request>"

/-- `check_ciphers`: reads the service's cipher subtree with
`fw.xapi.get(xpath=base_xpath)` and returns the tags of the elements
matched by `findall('./result/{service}/')` — the children of the
`result/{service}` node, in document order.  A failing read propagates
the device error; the event list records the read in either case. -/
def check_ciphers (w : World) (service : String) :
    List Event × Except PyErr (List String) :=
  match w.getResp (base_xpath service) with
  | Except.error e => ([Event.getOp (base_xpath service)], Except.error e)
  | Except.ok results =>
      let xml_list := (selectPath [results] ["result", service]).flatMap XmlElem.children
      ([Event.getOp (base_xpath service)], Except.ok (xml_list.map XmlElem.tag))

/-- Python's `set(a).issubset(b)`: every element of `a` occurs in `b`. -/
def pyIssubset (a b : List String) : Bool := a.all (fun c => b.contains c)

/-- `compare_ciphers`: appends `'ciphers_set'` to the accumulator and
returns it together with that status when
`set(cipher_list).issubset(set_ciphers_list)` holds, else appends and
returns `'ciphers_not_set'`.  Python mutates `results_list` in place and
returns the same list; the model returns the grown list. -/
def compare_ciphers (cl : List String) (service : String)
    (set_ciphers_list : List String) (results_list : List String) :
    List String × String :=
  if pyIssubset cl set_ciphers_list then
    (results_list ++ ["ciphers_set"], "ciphers_set")
  else
    (results_list ++ ["ciphers_not_set"], "ciphers_not_set")

/-- The loop body of `set_ciphers`: for each cipher in order, issue
`fw.xapi.set(xpath=base_xpath, element=entry_element)`.  The per-item
`findall('.')` / `attrib.get('status')` readback only feeds `print` and
cannot raise (`dict.get` returns `None` when absent), so it is dropped.
A raising write propagates, keeping the events already performed. -/
def set_ciphers_go (w : World) (service : String) :
    List String → List Event × Except PyErr Unit
  | [] => ([], Except.ok ())
  | cipher :: rest =>
      match w.setResp (base_xpath service) (entry_element cipher) with
      | Except.error e =>
          ([Event.setOp (base_xpath service) (entry_element cipher)], Except.error e)
      | Except.ok _ =>
          let r := set_ciphers_go w service rest
          (Event.setOp (base_xpath service) (entry_element cipher) :: r.1, r.2)

/-- `set_ciphers`: one configuration write per cipher in the given list. -/
def set_ciphers (w : World) (service : String) (cl : List String) :
    List Event × Except PyErr Unit :=
  set_ciphers_go w service cl

/-- `commit_config`: `fw.commit(sync=True, cmd=command)` with the fixed
description; the returned messages only feed `print`. -/
def commit_config (w : World) : List Event × Except PyErr Unit :=
  match w.commitResp true commitCmd with
  | Except.error e => ([Event.commitOp true commitCmd], Except.error e)
  | Except.ok _ => ([Event.commitOp true commitCmd], Except.ok ())

/-- `restart_service`: issues the service-restart operational command and
parses the reply: `findall('.')` yields the reply root, whose `status`
attribute is read with `attrib.get` (total), and whose
`find('./result/member').text` raises `AttributeError` when no
`result/member` element exists (attribute access on `None`). -/
def restart_service (w : World) (service : String) :
    List Event × Except PyErr Unit :=
  match w.opResp (serviceRestartCmd service) with
  | Except.error e => ([Event.opCmd (serviceRestartCmd service)], Except.error e)
  | Except.ok results =>
      match (selectPath [results] ["result", "member"]).head? with
      | none =>
          ([Event.opCmd (serviceRestartCmd service)],
           Except.error (PyErr.attributeError "text"))
      | some _ => ([Event.opCmd (serviceRestartCmd service)], Except.ok ())

/-- How a completed run ends: `done` when `main` returns normally,
`exited` when `sys.exit()` was reached inside `restart_system`. -/
inductive RunResult where
  | done : RunResult
  | exited : RunResult
  deriving Repr, DecidableEq

/-- `restart_system`: issues the system-restart operational command inside
`try: ... except: sys.exit()` — the bare `except` suppresses any raised
error and forces process exit instead. -/
def restart_system (w : World) : List Event × RunResult :=
  match w.opResp systemRestartCmd with
  | Except.error _ => ([Event.opCmd systemRestartCmd], RunResult.exited)
  | Except.ok _ => ([Event.opCmd systemRestartCmd], RunResult.done)

/-- The `while status == 'down'` loop of `check_device_up`, driven by the
scripted outcomes of successive `get_fw_connection()` calls.  A
successful attempt ends the loop.  A failing attempt raises
`PanURLError`, and Python then evaluates the handler expression
`pandevice.errors.PanURLError`; that lookup of the name `pandevice` is
`exceptNameLookup "pandevice"`.  Were the handler to match, the loop
would sleep 60 seconds and retry; a handler whose evaluation raises (or
that does not match) makes the new exception propagate out of the loop.
An empty outcome script marks the point where the scripted world ends
(`scriptExhausted`); all theorems work with scripts that cover the
attempts made. -/
def cduLoop : List Bool → List Event × List Bool × Except PyErr Unit
  | [] => ([], [], Except.error PyErr.scriptExhausted)
  | true :: rest => ([Event.connectAttempt], rest, Except.ok ())
  | false :: rest =>
      match exceptNameLookup "pandevice" with
      | Except.error e => ([Event.connectAttempt], rest, Except.error e)
      | Except.ok true =>
          let r := cduLoop rest
          (Event.connectAttempt :: Event.sleep 60 :: r.1, r.2.1, r.2.2)
      | Except.ok false => ([Event.connectAttempt], rest, Except.error PyErr.panURLError)

/-- `check_device_up`: sleeps the fixed 60-second grace interval, then
runs the reconnection loop.  Returns the events performed, the unconsumed
connection outcomes, and the result (`ok` models the fresh handle being
returned). -/
def check_device_up (outs : List Bool) :
    List Event × List Bool × Except PyErr Unit :=
  let r := cduLoop outs
  (Event.sleep 60 :: r.1, r.2.1, r.2.2)

/-- The remediation block of `main`'s loop body (the code guarded by
`if status == 'ciphers_not_set'`): write the desired ciphers, commit,
restart the service, and poll for recovery.  Any raising step propagates
its error, keeping the events performed so far and the unconsumed
connection outcomes. -/
def remediate (w : World) (outs : List Bool) (service : String) :
    List Event × List Bool × Except PyErr Unit :=
  match set_ciphers w service cipher_list with
  | (ev2, Except.error e) => (ev2, outs, Except.error e)
  | (ev2, Except.ok _) =>
      match commit_config w with
      | (ev3, Except.error e) => (ev2 ++ ev3, outs, Except.error e)
      | (ev3, Except.ok _) =>
          match restart_service w service with
          | (ev4, Except.error e) => (ev2 ++ ev3 ++ ev4, outs, Except.error e)
          | (ev4, Except.ok _) =>
              match check_device_up outs with
              | (ev5, outs2, r5) => (ev2 ++ ev3 ++ ev4 ++ ev5, outs2, r5)

/-- The body of `main`'s `for service in service_list` loop for one
service: audit, compare, and — when the status is `'ciphers_not_set'` —
run the remediation block. -/
def processService (w : World) (outs : List Bool) (results_list : List String)
    (service : String) : List Event × List Bool × Except PyErr (List String) :=
  match check_ciphers w service with
  | (ev1, Except.error e) => (ev1, outs, Except.error e)
  | (ev1, Except.ok set_ciphers_list) =>
      match compare_ciphers cipher_list service set_ciphers_list results_list with
      | (results_list2, status) =>
          if status = "ciphers_not_set" then
            match remediate w outs service with
            | (ev2, outs2, Except.error e) => (ev1 ++ ev2, outs2, Except.error e)
            | (ev2, outs2, Except.ok _) => (ev1 ++ ev2, outs2, Except.ok results_list2)
          else (ev1, outs, Except.ok results_list2)

/-- The service loop of `main` over `service_list = ['mgmt', 'ha']`,
threading the accumulator and the connection-outcome script. -/
def runServices (w : World) : List Event × List Bool × Except PyErr (List String) :=
  match processService w w.connectOutcomes [] "mgmt" with
  | (ev1, outs1, Except.error e) => (ev1, outs1, Except.error e)
  | (ev1, outs1, Except.ok rl1) =>
      match processService w outs1 rl1 "ha" with
      | (ev2, outs2, r2) => (ev1 ++ ev2, outs2, r2)

/-- Python's `list(set(l))` for a list of strings: duplicates removed.
The iteration order of a Python set is unspecified; the script only tests
membership of the result, which deduplication preserves. -/
def pyListSet : List String → List String
  | [] => []
  | x :: xs =>
      if (pyListSet xs).contains x then pyListSet xs else x :: pyListSet xs

/-- `main`: connect (the `Firewall` constructor performs no network call
and is recorded as the leading `connectAttempt`), process both services,
deduplicate the accumulated statuses, and issue `restart_system` exactly
when `'ciphers_not_set'` is among them.  An error raised while processing
a service propagates out of `main` as the run's result. -/
def mainRun (w : World) : List Event × Except PyErr RunResult :=
  match runServices w with
  | (ev, _, Except.error e) => (Event.connectAttempt :: ev, Except.error e)
  | (ev, _, Except.ok results_list) =>
      if (pyListSet results_list).contains "ciphers_not_set" then
        let r := restart_system w
        (Event.connectAttempt :: (ev ++ r.1), Except.ok r.2)
      else (Event.connectAttempt :: ev, Except.ok RunResult.done)

/-- The comparator status a run computes for a service: `none` when the
audit read raises, otherwise the status `compare_ciphers` yields for the
audited list against the desired policy. -/
def auditStatus (w : World) (service : String) : Option String :=
  match (check_ciphers w service).2 with
  | Except.error _ => none
  | Except.ok l => some (compare_ciphers cipher_list service l []).2

/-- A device response whose `result/{service}` subtree lists exactly the
given ciphers as child elements. -/
def ciphersResponse (service : String) (ciphers : List String) : XmlElem :=
  XmlElem.elem "response" [("status", "success")] none
    [XmlElem.elem "result" [] none
      [XmlElem.elem service [] none
        (ciphers.map (fun c => XmlElem.elem c [] none []))]]

/-- A well-formed reply to a configure write. -/
def setReply : XmlElem := XmlElem.elem "response" [("status", "success")] none []

/-- A well-formed reply to an operational command, carrying the
`result/member` element that `restart_service` reads. -/
def opReply : XmlElem :=
  XmlElem.elem "response" [("status", "success")] none
    [XmlElem.elem "result" [] none [XmlElem.elem "member" [] (some "ok") []]]

/-- A scripted device on which both services already list all 8 desired
ciphers. -/
def w0sat : World where
  getResp := fun x =>
    if x = base_xpath "mgmt" then Except.ok (ciphersResponse "mgmt" cipher_list)
    else if x = base_xpath "ha" then Except.ok (ciphersResponse "ha" cipher_list)
    else Except.error (PyErr.deviceError "unexpected xpath")
  setResp := fun _ _ => Except.ok setReply
  commitResp := fun _ _ => Except.ok (some (CommitMessages.single "ok"))
  opResp := fun _ => Except.ok opReply
  connectOutcomes := []

/-- A scripted device on which `mgmt` has no ciphers configured while
`ha` lists all 8; every write, commit and operational command succeeds,
and the one reconnection attempt after the `mgmt` restart succeeds. -/
def w0need : World where
  getResp := fun x =>
    if x = base_xpath "mgmt" then Except.ok (ciphersResponse "mgmt" [])
    else if x = base_xpath "ha" then Except.ok (ciphersResponse "ha" cipher_list)
    else Except.error (PyErr.deviceError "unexpected xpath")
  setResp := fun _ _ => Except.ok setReply
  commitResp := fun _ _ => Except.ok (some (CommitMessages.single "ok"))
  opResp := fun _ => Except.ok opReply
  connectOutcomes := [true]

/-- A scripted device whose `mgmt` response lists the same cipher element
twice. -/
def w0dup : World where
  getResp := fun x =>
    if x = base_xpath "mgmt" then
      Except.ok (ciphersResponse "mgmt" ["aes128-cbc", "aes128-cbc"])
    else Except.error (PyErr.deviceError "unexpected xpath")
  setResp := fun _ _ => Except.ok setReply
  commitResp := fun _ _ => Except.ok (some (CommitMessages.single "ok"))
  opResp := fun _ => Except.ok opReply
  connectOutcomes := []

/-- A scripted device whose configuration read succeeds but returns a
malformed document: a bare `response` element with no `result` child. -/
def w0malformed : World where
  getResp := fun _ => Except.ok (XmlElem.elem "response" [] none [])
  setResp := fun _ _ => Except.ok setReply
  commitResp := fun _ _ => Except.ok (some (CommitMessages.single "ok"))
  opResp := fun _ => Except.ok opReply
  connectOutcomes := []

/-- A scripted device whose configuration read raises. -/
def w0readfail : World where
  getResp := fun _ => Except.error (PyErr.deviceError "read failed")
  setResp := fun _ _ => Except.ok setReply
  commitResp := fun _ _ => Except.ok (some (CommitMessages.single "ok"))
  opResp := fun _ => Except.ok opReply
  connectOutcomes := []

/-- Like `w0need`, except every configuration write raises. -/
def w0setfail : World where
  getResp := fun x =>
    if x = base_xpath "mgmt" then Except.ok (ciphersResponse "mgmt" [])
    else if x = base_xpath "ha" then Except.ok (ciphersResponse "ha" cipher_list)
    else Except.error (PyErr.deviceError "unexpected xpath")
  setResp := fun _ _ => Except.error (PyErr.deviceError "set failed")
  commitResp := fun _ _ => Except.ok (some (CommitMessages.single "ok"))
  opResp := fun _ => Except.ok opReply
  connectOutcomes := []

/-- Like `w0need`, except the commit raises. -/
def w0commitfail : World where
  getResp := fun x =>
    if x = base_xpath "mgmt" then Except.ok (ciphersResponse "mgmt" [])
    else if x = base_xpath "ha" then Except.ok (ciphersResponse "ha" cipher_list)
    else Except.error (PyErr.deviceError "unexpected xpath")
  setResp := fun _ _ => Except.ok setReply
  commitResp := fun _ _ => Except.error (PyErr.deviceError "commit failed")
  opResp := fun _ => Except.ok opReply
  connectOutcomes := []

/-- Like `w0need`, except the service-restart operational command raises. -/
def w0svcrestartfail : World where
  getResp := fun x =>
    if x = base_xpath "mgmt" then Except.ok (ciphersResponse "mgmt" [])
    else if x = base_xpath "ha" then Except.ok (ciphersResponse "ha" cipher_list)
    else Except.error (PyErr.deviceError "unexpected xpath")
  setResp := fun _ _ => Except.ok setReply
  commitResp := fun _ _ => Except.ok (some (CommitMessages.single "ok"))
  opResp := fun c =>
    if c = serviceRestartCmd "mgmt" then Except.error (PyErr.deviceError "restart failed")
    else Except.ok opReply
  connectOutcomes := []

/-- Like `w0need`, except every operational command raises — in
particular the final system restart. -/
def w0sysfail : World where
  getResp := fun x =>
    if x = base_xpath "mgmt" then Except.ok (ciphersResponse "mgmt" [])
    else if x = base_xpath "ha" then Except.ok (ciphersResponse "ha" cipher_list)
    else Except.error (PyErr.deviceError "unexpected xpath")
  setResp := fun _ _ => Except.ok setReply
  commitResp := fun _ _ => Except.ok (some (CommitMessages.single "ok"))
  opResp := fun c =>
    if c = systemRestartCmd then Except.error (PyErr.deviceError "device rebooting")
    else Except.ok opReply
  connectOutcomes := [true]

/-- A scripted device on which `mgmt` is fully configured but the `ha`
configuration read raises. -/
def w0hafail : World where
  getResp := fun x =>
    if x = base_xpath "mgmt" then Except.ok (ciphersResponse "mgmt" cipher_list)
    else Except.error (PyErr.deviceError "ha read failed")
  setResp := fun _ _ => Except.ok setReply
  commitResp := fun _ _ => Except.ok (some (CommitMessages.single "ok"))
  opResp := fun _ => Except.ok opReply
  connectOutcomes := []

/-- Whether an event is an add-cipher configuration write. -/
def isWrite : Event → Bool
  | Event.setOp _ _ => true
  | _ => false

/-- Whether an event is a commit. -/
def isCommit : Event → Bool
  | Event.commitOp _ _ => true
  | _ => false

/-- Whether an event is an operational command (a service or system
restart). -/
def isOperational : Event → Bool
  | Event.opCmd _ => true
  | _ => false

/-- Whether an event is the full system restart command. -/
def isSystemRestart : Event → Bool
  | Event.opCmd c => c = systemRestartCmd
  | _ => false

/-- C1: the comparator reports `'ciphers_set'` exactly when every desired
cipher is among the configured ones, and `'ciphers_not_set'` otherwise. -/
theorem c1_compare_ciphers_subset_iff (D C acc : List String) (s : String) :
    ((compare_ciphers D s C acc).2 = "ciphers_set" ↔ ∀ c ∈ D, c ∈ C) ∧
    ((compare_ciphers D s C acc).2 = "ciphers_not_set" ↔ ¬ ∀ c ∈ D, c ∈ C) := by
  have hsub : pyIssubset D C = true ↔ ∀ c ∈ D, c ∈ C := by
    simp [pyIssubset, List.all_eq_true, List.contains]
  have hne : ("ciphers_set" : String) ≠ "ciphers_not_set" := by decide
  by_cases h : ∀ c ∈ D, c ∈ C
  · have hb : pyIssubset D C = true := hsub.mpr h
    have h2 : (compare_ciphers D s C acc).2 = "ciphers_set" := by
      simp [compare_ciphers, hb]
    rw [h2]
    exact ⟨⟨fun _ => h, fun _ => rfl⟩, ⟨fun hx => absurd hx hne, fun hn => absurd h hn⟩⟩
  · have hb : pyIssubset D C = false := by
      rcases Bool.eq_false_or_eq_true (pyIssubset D C) with ht | hf
      · exact absurd (hsub.mp ht) h
      · exact hf
    have h2 : (compare_ciphers D s C acc).2 = "ciphers_not_set" := by
      simp [compare_ciphers, hb]
    rw [h2]
    exact ⟨⟨fun hx => absurd hx (Ne.symm hne), fun hc => absurd hc h⟩,
           ⟨fun _ => h, fun _ => rfl⟩⟩

/-- One scripted connection failure: the raised `PanURLError` reaches the
handler clause, whose expression `pandevice.errors.PanURLError` names the
unbound `pandevice`, so `NameError` replaces it and leaves the loop. -/
theorem cduLoop_false (rest : List Bool) :
    cduLoop (false :: rest) =
      ([Event.connectAttempt], rest, Except.error (PyErr.nameError "pandevice")) := rfl

/-- One scripted connection success ends the loop. -/
theorem cduLoop_true (rest : List Bool) :
    cduLoop (true :: rest) = ([Event.connectAttempt], rest, Except.ok ()) := rfl

/-- C5: evaluating the recovery poll on one connection failure followed
by a scripted success (N = 1).  The claim expects the failure to be
caught, a second attempt to be made, and the live session returned; the
code instead aborts after the single failed attempt with
`NameError("pandevice")`, because the `except` clause's expression
`pandevice.errors.PanURLError` references a name no import binds. -/
theorem c5_poll_aborts_on_first_failure :
    check_device_up [false, true] =
      ([Event.sleep 60, Event.connectAttempt], [true],
        Except.error (PyErr.nameError "pandevice")) := rfl

/-- The audit always records exactly its one configuration read. -/
theorem check_ciphers_events (w : World) (s : String) :
    (check_ciphers w s).1 = [Event.getOp (base_xpath s)] := by
  cases hg : w.getResp (base_xpath s) <;> simp [check_ciphers, hg]

/-- The commit step always records exactly its one synchronous commit. -/
theorem commit_config_events (w : World) :
    (commit_config w).1 = [Event.commitOp true commitCmd] := by
  cases hg : w.commitResp true commitCmd <;> simp [commit_config, hg]

/-- The service restart always records exactly its one operational
command. -/
theorem restart_service_events (w : World) (s : String) :
    (restart_service w s).1 = [Event.opCmd (serviceRestartCmd s)] := by
  cases hg : w.opResp (serviceRestartCmd s) with
  | error e => simp [restart_service, hg]
  | ok r =>
      cases hh : (selectPath [r] ["result", "member"]).head? <;>
        simp [restart_service, hg, hh]

/-- Every event of the write loop is a configuration write. -/
theorem set_ciphers_go_shape (w : World) (s : String) :
    ∀ l, ∀ e ∈ (set_ciphers_go w s l).1, ∃ x el, e = Event.setOp x el := by
  intro l
  induction l with
  | nil => simp [set_ciphers_go]
  | cons c rest ih =>
      intro e he
      cases hr : w.setResp (base_xpath s) (entry_element c) with
      | error er =>
          simp [set_ciphers_go, hr] at he
          exact ⟨_, _, he⟩
      | ok v =>
          simp [set_ciphers_go, hr] at he
          rcases he with he | he
          · exact ⟨_, _, he⟩
          · exact ih e he

/-- When every write succeeds, the write loop performs exactly one write
per cipher, in order, and returns normally. -/
theorem set_ciphers_go_ok (w : World) (s : String) (l : List String)
    (h : ∀ c ∈ l, (w.setResp (base_xpath s) (entry_element c)).isOk = true) :
    set_ciphers_go w s l =
      (l.map (fun c => Event.setOp (base_xpath s) (entry_element c)),
        Except.ok ()) := by
  induction l with
  | nil => rfl
  | cons c rest ih =>
      have h1 := h c (by simp)
      cases hr : w.setResp (base_xpath s) (entry_element c) with
      | error er => rw [hr] at h1; simp [Except.isOk, Except.toBool] at h1
      | ok v =>
          have ih2 := ih (fun c2 hc2 => h c2 (by simp [hc2]))
          simp [set_ciphers_go, hr, ih2]

/-- Every event of the reconnection loop is an attempt or a sleep. -/
theorem cduLoop_shape (outs : List Bool) :
    ∀ e ∈ (cduLoop outs).1, e = Event.connectAttempt ∨ e = Event.sleep 60 := by
  induction outs with
  | nil => simp [cduLoop]
  | cons b rest ih =>
      cases b
      · intro e he
        rw [cduLoop_false] at he
        simp at he
        exact Or.inl he
      · intro e he
        rw [cduLoop_true] at he
        simp at he
        exact Or.inl he

/-- Every event of the recovery poll is an attempt or a sleep. -/
theorem check_device_up_shape (outs : List Bool) :
    ∀ e ∈ (check_device_up outs).1,
      e = Event.connectAttempt ∨ e = Event.sleep 60 := by
  intro e he
  simp [check_device_up] at he
  rcases he with he | he
  · exact Or.inr he
  · exact cduLoop_shape outs e he

/-- `set_ciphers` is the write loop. -/
theorem set_ciphers_eq_go (w : World) (s : String) (l : List String) :
    set_ciphers w s l = set_ciphers_go w s l := rfl

/-- Every event of `set_ciphers` is a configuration write. -/
theorem set_ciphers_shape (w : World) (s : String) :
    ∀ l, ∀ e ∈ (set_ciphers w s l).1, ∃ x el, e = Event.setOp x el :=
  set_ciphers_go_shape w s

/-- Every event of the remediation block is a write, the commit, the
service-restart command, a connection attempt, or a sleep. -/
theorem remediate_shape (w : World) (outs : List Bool) (s : String) :
    ∀ e ∈ (remediate w outs s).1,
      (∃ x el, e = Event.setOp x el) ∨ e = Event.commitOp true commitCmd ∨
      e = Event.opCmd (serviceRestartCmd s) ∨ e = Event.connectAttempt ∨
      e = Event.sleep 60 := by
  intro e he
  unfold remediate at he
  split at he
  next ev2 e2 h2 =>
    have hm : e ∈ (set_ciphers w s cipher_list).1 := by rw [h2]; exact he
    exact Or.inl (set_ciphers_shape w s cipher_list e hm)
  next ev2 u2 h2 =>
    split at he
    next ev3 e3 h3 =>
      rcases List.mem_append.mp he with hm | hm
      · have hm2 : e ∈ (set_ciphers w s cipher_list).1 := by rw [h2]; exact hm
        exact Or.inl (set_ciphers_shape w s cipher_list e hm2)
      · have hm3 : e ∈ (commit_config w).1 := by rw [h3]; exact hm
        rw [commit_config_events w] at hm3
        simp at hm3
        exact Or.inr (Or.inl hm3)
    next ev3 u3 h3 =>
      split at he
      next ev4 e4 h4 =>
        rcases List.mem_append.mp he with hm | hm
        rotate_left
        · have hm4 : e ∈ (restart_service w s).1 := by rw [h4]; exact hm
          rw [restart_service_events w s] at hm4
          simp at hm4
          exact Or.inr (Or.inr (Or.inl hm4))
        rcases List.mem_append.mp hm with hm | hm
        · have hm2 : e ∈ (set_ciphers w s cipher_list).1 := by rw [h2]; exact hm
          exact Or.inl (set_ciphers_shape w s cipher_list e hm2)
        · have hm3 : e ∈ (commit_config w).1 := by rw [h3]; exact hm
          rw [commit_config_events w] at hm3
          simp at hm3
          exact Or.inr (Or.inl hm3)
      next ev4 u4 h4 =>
        split at he
        next ev5 outs2 r5 h5 =>
          rcases List.mem_append.mp he with hm | hm
          rotate_left
          · have hm5 : e ∈ (check_device_up outs).1 := by rw [h5]; exact hm
            rcases check_device_up_shape outs e hm5 with hc | hc
            · exact Or.inr (Or.inr (Or.inr (Or.inl hc)))
            · exact Or.inr (Or.inr (Or.inr (Or.inr hc)))
          rcases List.mem_append.mp hm with hm | hm
          rotate_left
          · have hm4 : e ∈ (restart_service w s).1 := by rw [h4]; exact hm
            rw [restart_service_events w s] at hm4
            simp at hm4
            exact Or.inr (Or.inr (Or.inl hm4))
          rcases List.mem_append.mp hm with hm | hm
          · have hm2 : e ∈ (set_ciphers w s cipher_list).1 := by rw [h2]; exact hm
            exact Or.inl (set_ciphers_shape w s cipher_list e hm2)
          · have hm3 : e ∈ (commit_config w).1 := by rw [h3]; exact hm
            rw [commit_config_events w] at hm3
            simp at hm3
            exact Or.inr (Or.inl hm3)

/-- Every event of one loop iteration is the audit read or an event of
the remediation block. -/
theorem processService_shape (w : World) (outs : List Bool) (acc : List String)
    (s : String) :
    ∀ e ∈ (processService w outs acc s).1,
      e = Event.getOp (base_xpath s) ∨ e ∈ (remediate w outs s).1 := by
  intro e he
  unfold processService at he
  split at he
  next ev1 e1 h1 =>
    have hm : e ∈ (check_ciphers w s).1 := by rw [h1]; exact he
    rw [check_ciphers_events w s] at hm
    simp at hm
    exact Or.inl hm
  next ev1 scl h1 =>
    have hev1 : ev1 = [Event.getOp (base_xpath s)] := by
      have := check_ciphers_events w s
      rw [h1] at this
      exact this
    split at he
    next rl2 status hcmp =>
      split at he
      · split at he
        next ev2 o2 e2 h2 =>
          rcases List.mem_append.mp he with hm | hm
          · rw [hev1] at hm; simp at hm; exact Or.inl hm
          · have hmr : e ∈ (remediate w outs s).1 := by rw [h2]; exact hm
            exact Or.inr hmr
        next ev2 o2 u2 h2 =>
          rcases List.mem_append.mp he with hm | hm
          · rw [hev1] at hm; simp at hm; exact Or.inl hm
          · have hmr : e ∈ (remediate w outs s).1 := by rw [h2]; exact hm
            exact Or.inr hmr
      · rw [hev1] at he; simp at he; exact Or.inl he

/-- One loop iteration never issues the system-restart command when the
service's restart command differs from it. -/
theorem processService_no_system_restart (w : World) (outs : List Bool)
    (acc : List String) (s : String) (hs : serviceRestartCmd s ≠ systemRestartCmd) :
    Event.opCmd systemRestartCmd ∉ (processService w outs acc s).1 := by
  intro hmem
  rcases processService_shape w outs acc s _ hmem with h | h
  · exact Event.noConfusion h
  · rcases remediate_shape w outs s _ h with ⟨x, el, hx⟩ | hx | hx | hx | hx
    · exact Event.noConfusion hx
    · exact Event.noConfusion hx
    · exact hs (Event.opCmd.inj hx).symm
    · exact Event.noConfusion hx
    · exact Event.noConfusion hx

/-- The comparator returns the accumulator grown by exactly its status. -/
theorem compare_ciphers_fst (cl : List String) (s : String) (C acc : List String) :
    (compare_ciphers cl s C acc).1 = acc ++ [(compare_ciphers cl s C acc).2] := by
  unfold compare_ciphers; split <;> rfl

/-- The comparator status is one of the two tokens. -/
theorem compare_ciphers_snd_cases (cl : List String) (s : String) (C acc : List String) :
    (compare_ciphers cl s C acc).2 = "ciphers_set" ∨
    (compare_ciphers cl s C acc).2 = "ciphers_not_set" := by
  unfold compare_ciphers; split
  · exact Or.inl rfl
  · exact Or.inr rfl

/-- The comparator status does not depend on the accumulator. -/
theorem compare_ciphers_snd_acc (cl : List String) (s : String)
    (C acc acc2 : List String) :
    (compare_ciphers cl s C acc).2 = (compare_ciphers cl s C acc2).2 := by
  unfold compare_ciphers; split <;> rfl

/-- A successful audit determines the recorded status. -/
theorem auditStatus_of_ok (w : World) (s : String) (scl : List String)
    (h : (check_ciphers w s).2 = Except.ok scl) :
    auditStatus w s = some ((compare_ciphers cipher_list s scl []).2) := by
  unfold auditStatus
  rw [h]

/-- List `contains` agrees with membership for strings. -/
theorem contains_iff_mem_str (l : List String) (x : String) :
    l.contains x = true ↔ x ∈ l := by
  simp [List.contains, List.elem_iff]

/-- One loop iteration that completes appends exactly the service's
comparator status to the accumulator it received. -/
theorem processService_ok_status (w : World) (outs : List Bool) (acc : List String)
    (s : String) (ev : List Event) (outs2 : List Bool) (rl : List String)
    (h : processService w outs acc s = (ev, outs2, Except.ok rl)) :
    ∃ st, auditStatus w s = some st ∧ rl = acc ++ [st] := by
  unfold processService at h
  split at h
  next ev1 e1 h1 => simp at h
  next ev1 scl h1 =>
    have hc2 : (check_ciphers w s).2 = Except.ok scl := by rw [h1]
    split at h
    next rl2 status hcmp =>
      have hst : auditStatus w s = some status := by
        rw [auditStatus_of_ok w s scl hc2]
        rw [compare_ciphers_snd_acc cipher_list s scl [] acc, hcmp]
      have hrl2 : rl2 = acc ++ [status] := by
        have hf := compare_ciphers_fst cipher_list s scl acc
        rw [hcmp] at hf
        simpa using hf
      split at h
      · split at h
        next ev2 o2 e2 h2 => simp at h
        next ev2 o2 u2 h2 =>
          simp only [Prod.mk.injEq, Except.ok.injEq] at h
          exact ⟨status, hst, by rw [← h.2.2, hrl2]⟩
      · simp only [Prod.mk.injEq, Except.ok.injEq] at h
        exact ⟨status, hst, by rw [← h.2.2, hrl2]⟩

/-- The two-service loop, when it completes, returns exactly the two
recorded statuses, in service order. -/
theorem runServices_ok (w : World) (ev : List Event) (outs2 : List Bool)
    (rl : List String) (h : runServices w = (ev, outs2, Except.ok rl)) :
    ∃ st1 st2, auditStatus w "mgmt" = some st1 ∧ auditStatus w "ha" = some st2 ∧
      rl = [st1, st2] := by
  unfold runServices at h
  split at h
  next ev1 o1 e1 h1 => simp at h
  next ev1 o1 rl1 h1 =>
    split at h
    next ev2 o2 r2 h2 =>
      simp only [Prod.mk.injEq] at h
      obtain ⟨st1, hst1, hrl1⟩ := processService_ok_status _ _ _ _ _ _ _ h1
      have h2b : processService w o1 rl1 "ha" = (ev2, o2, Except.ok rl) := by
        rw [h2, h.2.2]
      obtain ⟨st2, hst2, hrl2⟩ := processService_ok_status _ _ _ _ _ _ _ h2b
      refine ⟨st1, st2, hst1, hst2, ?_⟩
      rw [hrl2, hrl1]
      simp

/-- The two-service loop never issues the system-restart command. -/
theorem runServices_no_system_restart (w : World) :
    Event.opCmd systemRestartCmd ∉ (runServices w).1 := by
  intro hm
  unfold runServices at hm
  split at hm
  next ev1 o1 e1 h1 =>
    have hmm : Event.opCmd systemRestartCmd ∈
        (processService w w.connectOutcomes [] "mgmt").1 := by rw [h1]; exact hm
    exact processService_no_system_restart _ _ _ _ (by decide) hmm
  next ev1 o1 rl1 h1 =>
    split at hm
    next ev2 o2 r2 h2 =>
      rcases List.mem_append.mp hm with hm1 | hm2
      · have hmm : Event.opCmd systemRestartCmd ∈
            (processService w w.connectOutcomes [] "mgmt").1 := by rw [h1]; exact hm1
        exact processService_no_system_restart _ _ _ _ (by decide) hmm
      · have hmm : Event.opCmd systemRestartCmd ∈
            (processService w o1 rl1 "ha").1 := by rw [h2]; exact hm2
        exact processService_no_system_restart _ _ _ _ (by decide) hmm

/-- Deduplication preserves membership. -/
theorem mem_pyListSet : ∀ (l : List String) (x : String),
    x ∈ pyListSet l ↔ x ∈ l := by
  intro l
  induction l with
  | nil => intro x; simp [pyListSet]
  | cons a as ih =>
      intro x
      unfold pyListSet
      split
      next hc =>
        have ha : a ∈ as := (ih a).mp ((contains_iff_mem_str _ a).mp hc)
        constructor
        · intro hx; exact List.mem_cons_of_mem a ((ih x).mp hx)
        · intro hx
          rcases List.mem_cons.mp hx with rfl | hx2
          · exact (ih x).mpr ha
          · exact (ih x).mpr hx2
      next hc =>
        constructor
        · intro hx
          rcases List.mem_cons.mp hx with rfl | hx2
          · exact List.mem_cons_self _ _
          · exact List.mem_cons_of_mem a ((ih x).mp hx2)
        · intro hx
          rcases List.mem_cons.mp hx with rfl | hx2
          · exact List.mem_cons_self _ _
          · exact List.mem_cons_of_mem a ((ih x).mpr hx2)

/-- The final system restart records exactly its one operational
command, whatever the device answers. -/
theorem restart_system_events (w : World) :
    (restart_system w).1 = [Event.opCmd systemRestartCmd] := by
  cases hg : w.opResp systemRestartCmd <;> simp [restart_system, hg]

/-- A service-processing error is the run's result. -/
theorem mainRun_of_err (w : World) (ev : List Event) (o : List Bool) (e : PyErr)
    (h : runServices w = (ev, o, Except.error e)) :
    mainRun w = (Event.connectAttempt :: ev, Except.error e) := by
  unfold mainRun; rw [h]

/-- A completed loop with a recorded `'ciphers_not_set'` escalates. -/
theorem mainRun_of_ok_needed (w : World) (ev : List Event) (o : List Bool)
    (rl : List String) (h : runServices w = (ev, o, Except.ok rl))
    (hc : (pyListSet rl).contains "ciphers_not_set" = true) :
    mainRun w = (Event.connectAttempt :: (ev ++ (restart_system w).1),
      Except.ok (restart_system w).2) := by
  unfold mainRun
  rw [h]
  show (if (pyListSet rl).contains "ciphers_not_set" = true then
          (Event.connectAttempt :: (ev ++ (restart_system w).1),
            Except.ok (restart_system w).2)
        else (Event.connectAttempt :: ev, Except.ok RunResult.done)) = _
  rw [if_pos hc]

/-- A completed loop with no recorded `'ciphers_not_set'` ends the run
normally with no further device interaction. -/
theorem mainRun_of_ok_sat (w : World) (ev : List Event) (o : List Bool)
    (rl : List String) (h : runServices w = (ev, o, Except.ok rl))
    (hc : (pyListSet rl).contains "ciphers_not_set" = false) :
    mainRun w = (Event.connectAttempt :: ev, Except.ok RunResult.done) := by
  unfold mainRun
  rw [h]
  show (if (pyListSet rl).contains "ciphers_not_set" = true then
          (Event.connectAttempt :: (ev ++ (restart_system w).1),
            Except.ok (restart_system w).2)
        else (Event.connectAttempt :: ev, Except.ok RunResult.done)) = _
  rw [if_neg (by rw [hc]; simp)]

/-- Eliminating a recorded `'ciphers_not_set'` status: the audit read
succeeded and the comparator rejects its list for any accumulator. -/
theorem auditStatus_not_set_elim (w : World) (s : String)
    (h : auditStatus w s = some "ciphers_not_set") :
    ∃ scl, (check_ciphers w s).2 = Except.ok scl ∧
      ∀ acc, (compare_ciphers cipher_list s scl acc).2 = "ciphers_not_set" := by
  unfold auditStatus at h
  split at h
  next e heq => simp at h
  next l heq =>
    refine ⟨l, heq, ?_⟩
    intro acc
    rw [compare_ciphers_snd_acc cipher_list s l acc []]
    simpa using h

/-- Eliminating a recorded `'ciphers_set'` status: the audit read
succeeded and the comparator accepts its list for any accumulator. -/
theorem auditStatus_set_elim (w : World) (s : String)
    (h : auditStatus w s = some "ciphers_set") :
    ∃ scl, (check_ciphers w s).2 = Except.ok scl ∧
      ∀ acc, (compare_ciphers cipher_list s scl acc).2 = "ciphers_set" := by
  unfold auditStatus at h
  split at h
  next e heq => simp at h
  next l heq =>
    refine ⟨l, heq, ?_⟩
    intro acc
    rw [compare_ciphers_snd_acc cipher_list s l acc []]
    simpa using h

/-- The audit call as a pair, given its result component. -/
theorem check_ciphers_pair (w : World) (s : String) (scl : List String)
    (hc2 : (check_ciphers w s).2 = Except.ok scl) :
    check_ciphers w s = ([Event.getOp (base_xpath s)], Except.ok scl) := by
  rw [← check_ciphers_events w s, ← hc2]

/-- A satisfied service performs only its audit read and records
`'ciphers_set'`. -/
theorem processService_sat (w : World) (outs : List Bool) (acc : List String)
    (s : String) (scl : List String)
    (hc2 : (check_ciphers w s).2 = Except.ok scl)
    (hset : (compare_ciphers cipher_list s scl acc).2 = "ciphers_set") :
    processService w outs acc s =
      ([Event.getOp (base_xpath s)], outs, Except.ok (acc ++ ["ciphers_set"])) := by
  unfold processService
  rw [check_ciphers_pair w s scl hc2]
  split
  next rl2 status hcmp => simp at hcmp
  next ev1 scl2 heq =>
    have hev1 : ev1 = [Event.getOp (base_xpath s)] := by
      have := congrArg Prod.fst heq
      simpa using this.symm
    have hscl2 : scl2 = scl := by
      have := congrArg Prod.snd heq
      simpa using this.symm
    subst hev1
    subst hscl2
    split
    next rl2 status hcmp =>
      have hstat : status = "ciphers_set" := by
        have := congrArg Prod.snd hcmp
        simp at this
        rw [← this]
        exact hset
      rw [if_neg (by rw [hstat]; decide)]
      have hrl2 : rl2 = acc ++ ["ciphers_set"] := by
        have hf := compare_ciphers_fst cipher_list s scl2 acc
        rw [hcmp] at hf
        simp at hf
        rw [hf, hstat]
      rw [hrl2]

/-- A service needing remediation performs its audit read followed by the
remediation block's events. -/
theorem processService_events_not_set (w : World) (outs : List Bool)
    (acc : List String) (s : String) (scl : List String)
    (hc2 : (check_ciphers w s).2 = Except.ok scl)
    (hns : (compare_ciphers cipher_list s scl acc).2 = "ciphers_not_set") :
    (processService w outs acc s).1 =
      Event.getOp (base_xpath s) :: (remediate w outs s).1 := by
  unfold processService
  rw [check_ciphers_pair w s scl hc2]
  split
  next rl2 status hcmp => simp at hcmp
  next ev1 scl2 heq =>
    have hev1 : ev1 = [Event.getOp (base_xpath s)] := by
      have := congrArg Prod.fst heq
      simpa using this.symm
    have hscl2 : scl2 = scl := by
      have := congrArg Prod.snd heq
      simpa using this.symm
    subst hev1
    subst hscl2
    split
    next rl2 status hcmp =>
      have hstat : status = "ciphers_not_set" := by
        have := congrArg Prod.snd hcmp
        simp at this
        rw [← this]
        exact hns
      rw [if_pos hstat]
      rcases hrem : remediate w outs s with ⟨ev2, o2, r2⟩
      cases r2 <;> simp [hrem]

/-- Writes mapped from a cipher list count as that many writes. -/
theorem countP_isWrite_map (s : String) (l : List String) :
    (l.map (fun c => Event.setOp (base_xpath s) (entry_element c))).countP
      isWrite = l.length := by
  induction l with
  | nil => rfl
  | cons c rest ih => simp [List.countP_cons, isWrite, ih]

/-- The commit step performs no configuration write. -/
theorem countP_isWrite_commit (w : World) :
    (commit_config w).1.countP isWrite = 0 := by
  rw [commit_config_events]; rfl

/-- The service restart performs no configuration write. -/
theorem countP_isWrite_restart (w : World) (s : String) :
    (restart_service w s).1.countP isWrite = 0 := by
  rw [restart_service_events]; rfl

/-- The recovery poll performs no configuration write. -/
theorem countP_isWrite_cdu (outs : List Bool) :
    (check_device_up outs).1.countP isWrite = 0 := by
  refine List.countP_eq_zero.mpr ?_
  intro e he
  rcases check_device_up_shape outs e he with rfl | rfl <;> simp [isWrite]

/-- When every write is accepted, the remediation block performs exactly
one configuration write per desired cipher. -/
theorem remediate_write_count (w : World) (outs : List Bool) (s : String)
    (hok : ∀ c ∈ cipher_list,
      (w.setResp (base_xpath s) (entry_element c)).isOk = true) :
    (remediate w outs s).1.countP isWrite = cipher_list.length := by
  have hset : set_ciphers w s cipher_list =
      (cipher_list.map (fun c => Event.setOp (base_xpath s) (entry_element c)),
        Except.ok ()) := set_ciphers_go_ok w s cipher_list hok
  unfold remediate
  rw [hset]
  rcases hcm : commit_config w with ⟨ev3, r3⟩
  have hev3 : (commit_config w).1.countP isWrite = 0 := countP_isWrite_commit w
  rw [hcm] at hev3
  cases r3 with
  | error e3 =>
      simp [List.countP_append, countP_isWrite_map, hev3, isWrite]
  | ok u3 =>
      rcases hrs : restart_service w s with ⟨ev4, r4⟩
      have hev4 : (restart_service w s).1.countP isWrite = 0 :=
        countP_isWrite_restart w s
      rw [hrs] at hev4
      cases r4 with
      | error e4 =>
          simp [List.countP_append, countP_isWrite_map, hev3, hev4, isWrite]
      | ok u4 =>
          rcases hcd : check_device_up outs with ⟨ev5, o5, r5⟩
          have hev5 : (check_device_up outs).1.countP isWrite = 0 :=
            countP_isWrite_cdu outs
          rw [hcd] at hev5
          simp [List.countP_append, countP_isWrite_map, hev3, hev4, hev5, isWrite]

/-- Computing the two-service loop from the first service's completed
iteration. -/
theorem runServices_eq_of_ok (w : World) (ev1 : List Event) (o1 : List Bool)
    (rl1 : List String)
    (h1 : processService w w.connectOutcomes [] "mgmt" = (ev1, o1, Except.ok rl1)) :
    runServices w = (ev1 ++ (processService w o1 rl1 "ha").1,
      (processService w o1 rl1 "ha").2.1, (processService w o1 rl1 "ha").2.2) := by
  unfold runServices
  rw [h1]

/-- An event is counted by `isSystemRestart` exactly when it is the
system-restart command. -/
theorem isSystemRestart_iff (e : Event) :
    isSystemRestart e = true ↔ e = Event.opCmd systemRestartCmd := by
  cases e <;> simp [isSystemRestart]

/-- C2: for a service whose comparator status is `'ciphers_not_set'` and
whose writes are accepted, the remediator issues exactly one add-cipher
configuration write per desired cipher — here exactly 8 — whatever the
configured set held (which is not even an input to `set_ciphers`). -/
theorem c2_one_write_per_cipher (w : World) (s : String) (outs : List Bool)
    (acc : List String)
    (hok : ∀ c ∈ cipher_list,
      (w.setResp (base_xpath s) (entry_element c)).isOk = true)
    (hstatus : auditStatus w s = some "ciphers_not_set") :
    (set_ciphers w s cipher_list).1 =
      cipher_list.map (fun c => Event.setOp (base_xpath s) (entry_element c)) ∧
    (set_ciphers w s cipher_list).1.length = 8 ∧
    (processService w outs acc s).1.countP isWrite = 8 := by
  have hset := set_ciphers_go_ok w s cipher_list hok
  refine ⟨by rw [set_ciphers_eq_go, hset], ?_, ?_⟩
  · rw [set_ciphers_eq_go, hset]
    simp [cipher_list]
  · obtain ⟨scl, hc2, hns⟩ := auditStatus_not_set_elim w s hstatus
    rw [processService_events_not_set w outs acc s scl hc2 (hns acc)]
    have hrc := remediate_write_count w outs s hok
    simp [List.countP_cons, isWrite, hrc, cipher_list]

/-- C2 witness: on the scripted device `w0need`, the `mgmt` service needs
remediation, all its writes are accepted, and its loop iteration performs
exactly 8 configuration writes. -/
theorem c2_witness :
    auditStatus w0need "mgmt" = some "ciphers_not_set" ∧
    (processService w0need w0need.connectOutcomes [] "mgmt").1.countP isWrite = 8 :=
  ⟨by decide,
    (c2_one_write_per_cipher w0need "mgmt" w0need.connectOutcomes []
      (by decide) (by decide)).2.2⟩

/-- C3: a completed run issues the full system restart exactly when at
least one of the two services recorded status `'ciphers_not_set'`. -/
theorem c3_escalates_iff_some_needed (w : World) (tr : List Event)
    (res : RunResult) (h : mainRun w = (tr, Except.ok res)) :
    Event.opCmd systemRestartCmd ∈ tr ↔
      (auditStatus w "mgmt" = some "ciphers_not_set" ∨
       auditStatus w "ha" = some "ciphers_not_set") := by
  rcases hR : runServices w with ⟨ev, o, r⟩
  cases r with
  | error e =>
      have hm := mainRun_of_err w ev o e hR
      rw [hm] at h
      simp at h
  | ok rl =>
      obtain ⟨st1, st2, hst1, hst2, hrl⟩ := runServices_ok w ev o rl hR
      by_cases hc : (pyListSet rl).contains "ciphers_not_set" = true
      · have hm := mainRun_of_ok_needed w ev o rl hR hc
        rw [hm] at h
        have htr : tr = Event.connectAttempt :: (ev ++ (restart_system w).1) := by
          have := congrArg Prod.fst h
          simpa using this.symm
        constructor
        · intro _
          have hmem : "ciphers_not_set" ∈ rl :=
            (mem_pyListSet _ _).mp ((contains_iff_mem_str _ _).mp hc)
          rw [hrl] at hmem
          simp at hmem
          rcases hmem with h1 | h2
          · exact Or.inl (by rw [hst1, h1])
          · exact Or.inr (by rw [hst2, h2])
        · intro _
          rw [htr, restart_system_events w]
          simp
      · have hcf : (pyListSet rl).contains "ciphers_not_set" = false := by
          revert hc
          cases (pyListSet rl).contains "ciphers_not_set" <;> simp
        have hm := mainRun_of_ok_sat w ev o rl hR hcf
        rw [hm] at h
        have htr : tr = Event.connectAttempt :: ev := by
          have := congrArg Prod.fst h
          simpa using this.symm
        constructor
        · intro hmem
          rw [htr] at hmem
          simp at hmem
          exact absurd (show Event.opCmd systemRestartCmd ∈ (runServices w).1 by
            rw [hR]; exact hmem) (runServices_no_system_restart w)
        · intro hdisj
          exfalso
          have hnm : "ciphers_not_set" ∉ rl := by
            intro hmm
            have hmm2 : "ciphers_not_set" ∈ pyListSet rl := (mem_pyListSet _ _).mpr hmm
            rw [← contains_iff_mem_str] at hmm2
            rw [hcf] at hmm2
            exact Bool.noConfusion hmm2
          rcases hdisj with hd | hd
          · rw [hst1] at hd
            simp at hd
            apply hnm
            rw [hrl]
            simp [hd]
          · rw [hst2] at hd
            simp at hd
            apply hnm
            rw [hrl]
            simp [hd]

/-- C3 witness: on `w0need` (where `mgmt` needs remediation) the run
completes and its trace contains the system-restart command. -/
theorem c3_witness :
    Event.opCmd systemRestartCmd ∈ (mainRun w0need).1 :=
  (c3_escalates_iff_some_needed w0need (mainRun w0need).1 RunResult.done
    (by decide)).mpr (Or.inl (by decide))

/-- C4: when both services already record `'ciphers_set'`, the run
performs exactly the initial connection and the two audit reads — no
configuration write, no commit, no operational command — and ends in
state done. -/
theorem c4_no_change_frame (w : World)
    (h1 : auditStatus w "mgmt" = some "ciphers_set")
    (h2 : auditStatus w "ha" = some "ciphers_set") :
    mainRun w = ([Event.connectAttempt, Event.getOp (base_xpath "mgmt"),
        Event.getOp (base_xpath "ha")], Except.ok RunResult.done) ∧
    (mainRun w).1.countP isWrite = 0 ∧
    (mainRun w).1.countP isCommit = 0 ∧
    (mainRun w).1.countP isOperational = 0 := by
  obtain ⟨scl1, hc1, hcmp1⟩ := auditStatus_set_elim w "mgmt" h1
  obtain ⟨scl2, hc2, hcmp2⟩ := auditStatus_set_elim w "ha" h2
  have hp1 := processService_sat w w.connectOutcomes [] "mgmt" scl1 hc1 (hcmp1 [])
  have hp2 := processService_sat w w.connectOutcomes ["ciphers_set"] "ha" scl2 hc2
    (hcmp2 ["ciphers_set"])
  have hp1b : processService w w.connectOutcomes [] "mgmt" =
      ([Event.getOp (base_xpath "mgmt")], w.connectOutcomes,
        Except.ok ["ciphers_set"]) := by
    simpa using hp1
  have hrs : runServices w = ([Event.getOp (base_xpath "mgmt"),
      Event.getOp (base_xpath "ha")], w.connectOutcomes,
      Except.ok ["ciphers_set", "ciphers_set"]) := by
    rw [runServices_eq_of_ok w _ _ _ hp1b, hp2]
    simp
  have hm := mainRun_of_ok_sat w _ _ _ hrs (by decide)
  refine ⟨hm, ?_, ?_, ?_⟩ <;> rw [hm] <;> rfl

/-- C4 witness: the fully-satisfied scripted device runs to done with
only the connection and the two audit reads. -/
theorem c4_witness :
    mainRun w0sat = ([Event.connectAttempt, Event.getOp (base_xpath "mgmt"),
        Event.getOp (base_xpath "ha")], Except.ok RunResult.done) :=
  (c4_no_change_frame w0sat (by decide) (by decide)).1

/-- C9: every run issues the system-restart command at most once; when
it is issued, it is the last device interaction of the run and both
services had completed with a recorded status. -/
theorem c9_restart_at_most_once_and_last (w : World) :
    (mainRun w).1.countP isSystemRestart ≤ 1 ∧
    (Event.opCmd systemRestartCmd ∈ (mainRun w).1 →
      (mainRun w).1.getLast? = some (Event.opCmd systemRestartCmd) ∧
      ∃ st1 st2, auditStatus w "mgmt" = some st1 ∧
        auditStatus w "ha" = some st2) := by
  rcases hR : runServices w with ⟨ev, o, r⟩
  have hnoev : ∀ e ∈ ev, isSystemRestart e = false := by
    intro e he
    have hmem : e ∈ (runServices w).1 := by rw [hR]; exact he
    have hne : e ≠ Event.opCmd systemRestartCmd := by
      intro heq
      exact runServices_no_system_restart w (heq ▸ hmem)
    rcases Bool.eq_false_or_eq_true (isSystemRestart e) with ht | hf
    · exact absurd ((isSystemRestart_iff e).mp ht) hne
    · exact hf
  have hev0 : ev.countP isSystemRestart = 0 :=
    List.countP_eq_zero.mpr (fun a ha => by simp [hnoev a ha])
  cases r with
  | error e =>
      have hm := mainRun_of_err w ev o e hR
      rw [hm]
      constructor
      · simp [List.countP_cons, hev0, isSystemRestart]
      · intro hmem
        exfalso
        simp at hmem
        exact absurd (show Event.opCmd systemRestartCmd ∈ (runServices w).1 by
          rw [hR]; exact hmem) (runServices_no_system_restart w)
  | ok rl =>
      obtain ⟨st1, st2, hst1, hst2, hrl⟩ := runServices_ok w ev o rl hR
      by_cases hc : (pyListSet rl).contains "ciphers_not_set" = true
      · have hm := mainRun_of_ok_needed w ev o rl hR hc
        rw [hm, restart_system_events w]
        constructor
        · simp [List.countP_cons, List.countP_append, hev0, isSystemRestart]
        · intro _
          refine ⟨?_, st1, st2, hst1, hst2⟩
          rw [show Event.connectAttempt :: (ev ++ [Event.opCmd systemRestartCmd]) =
            (Event.connectAttempt :: ev) ++ [Event.opCmd systemRestartCmd] from rfl]
          exact List.getLast?_concat _
      · have hcf : (pyListSet rl).contains "ciphers_not_set" = false := by
          revert hc
          cases (pyListSet rl).contains "ciphers_not_set" <;> simp
        have hm := mainRun_of_ok_sat w ev o rl hR hcf
        rw [hm]
        constructor
        · simp [List.countP_cons, hev0, isSystemRestart]
        · intro hmem
          exfalso
          simp at hmem
          exact absurd (show Event.opCmd systemRestartCmd ∈ (runServices w).1 by
            rw [hR]; exact hmem) (runServices_no_system_restart w)

/-- C9 witness: on `w0need` the system restart is issued, and the
theorem places it last in the trace. -/
theorem c9_witness :
    (mainRun w0need).1.getLast? = some (Event.opCmd systemRestartCmd) :=
  ((c9_restart_at_most_once_and_last w0need).2 (by decide)).1

/-- C10: every comparator call returns its accumulator grown by exactly
its one status token, and a completed two-service loop accumulates
exactly two entries. -/
theorem c10_accumulator_growth (D C acc : List String) (s : String)
    (w : World) (ev : List Event) (o : List Bool) (rl : List String) :
    ((compare_ciphers D s C acc).1 = acc ++ [(compare_ciphers D s C acc).2] ∧
     (compare_ciphers D s C acc).1.length = acc.length + 1) ∧
    (runServices w = (ev, o, Except.ok rl) → rl.length = 2) := by
  refine ⟨⟨compare_ciphers_fst D s C acc, ?_⟩, ?_⟩
  · rw [compare_ciphers_fst D s C acc]
    simp
  · intro h
    obtain ⟨st1, st2, _, _, hrl⟩ := runServices_ok w ev o rl h
    rw [hrl]
    rfl

/-- C10 witness: the fully-satisfied scripted run records exactly two
statuses. -/
theorem c10_witness :
    runServices w0sat = ([Event.getOp (base_xpath "mgmt"),
      Event.getOp (base_xpath "ha")], [],
      Except.ok ["ciphers_set", "ciphers_set"]) ∧
    (["ciphers_set", "ciphers_set"] : List String).length = 2 :=
  ⟨by decide,
    (c10_accumulator_growth cipher_list [] [] "mgmt" w0sat
      [Event.getOp (base_xpath "mgmt"), Event.getOp (base_xpath "ha")] []
      ["ciphers_set", "ciphers_set"]).2 (by decide)⟩

/-- C6 counterexample: against a device response that lists the same
cipher element twice, the auditor returns the token twice — its output
is a list with duplicates, not a set. -/
theorem c6_counterexample :
    (check_ciphers w0dup "mgmt").2 = Except.ok ["aes128-cbc", "aes128-cbc"] ∧
    ¬ (["aes128-cbc", "aes128-cbc"] : List String).Nodup := by
  constructor
  · decide
  · decide

/-- C6 amended: the auditor returns exactly the list of child tag names
under the `result/{service}` node in document order, so its output is
duplicate-free exactly as far as the device response repeats no child
tag. -/
theorem c6_tags_in_order_nodup (w : World) (s : String) (doc : XmlElem)
    (hresp : w.getResp (base_xpath s) = Except.ok doc)
    (hnd : (((selectPath [doc] ["result", s]).flatMap XmlElem.children).map
      XmlElem.tag).Nodup) :
    (check_ciphers w s).2 = Except.ok
      (((selectPath [doc] ["result", s]).flatMap XmlElem.children).map
        XmlElem.tag) ∧
    ∀ l, (check_ciphers w s).2 = Except.ok l → l.Nodup := by
  have heq : (check_ciphers w s).2 = Except.ok
      (((selectPath [doc] ["result", s]).flatMap XmlElem.children).map
        XmlElem.tag) := by
    simp [check_ciphers, hresp]
  refine ⟨heq, ?_⟩
  intro l hl
  rw [heq] at hl
  simp at hl
  rw [← hl]
  exact hnd

/-- C6 witness: a response listing each desired cipher once yields a
duplicate-free audit list. -/
theorem c6_witness : cipher_list.Nodup :=
  (c6_tags_in_order_nodup w0sat "mgmt" (ciphersResponse "mgmt" cipher_list)
    rfl (by decide)).2 cipher_list (by decide)

/-- C7 counterexample: a read that succeeds but returns a malformed
document (no `result` element) does not raise — the auditor silently
returns the normal empty list. -/
theorem c7_counterexample :
    (check_ciphers w0malformed "mgmt").2 = Except.ok [] ∧
    (check_ciphers w0malformed "mgmt").2.isOk = true := by
  constructor
  · decide
  · decide

/-- C7 amended: the auditor fails — propagating the underlying device
error — whenever the configuration read itself raises; a malformed
structure is not detected, the selection simply matches nothing. -/
theorem c7_read_error_propagates (w : World) (s : String) (e : PyErr)
    (h : w.getResp (base_xpath s) = Except.error e) :
    (check_ciphers w s).2 = Except.error e := by
  simp [check_ciphers, h]

/-- C7 witness: a raising read surfaces as the auditor's error. -/
theorem c7_witness :
    (check_ciphers w0readfail "mgmt").2 =
      Except.error (PyErr.deviceError "read failed") :=
  c7_read_error_propagates w0readfail "mgmt"
    (PyErr.deviceError "read failed") rfl

/-- A raising write makes the remediation block raise that error. -/
theorem remediate_err_of_set (w : World) (outs : List Bool) (s : String)
    (e : PyErr) (h : (set_ciphers w s cipher_list).2 = Except.error e) :
    (remediate w outs s).2.2 = Except.error e := by
  unfold remediate
  rcases hs : set_ciphers w s cipher_list with ⟨ev2, r2⟩
  have hr2 : r2 = Except.error e := by rw [hs] at h; exact h
  subst hr2
  rfl

/-- A raising commit (after accepted writes) makes the remediation block
raise that error. -/
theorem remediate_err_of_commit (w : World) (outs : List Bool) (s : String)
    (e : PyErr) (hset : (set_ciphers w s cipher_list).2 = Except.ok ())
    (h : (commit_config w).2 = Except.error e) :
    (remediate w outs s).2.2 = Except.error e := by
  unfold remediate
  rcases hs : set_ciphers w s cipher_list with ⟨ev2, r2⟩
  have hr2 : r2 = Except.ok () := by rw [hs] at hset; exact hset
  subst hr2
  rcases hc : commit_config w with ⟨ev3, r3⟩
  have hr3 : r3 = Except.error e := by rw [hc] at h; exact h
  subst hr3
  rfl

/-- A raising service restart (after accepted writes and commit) makes
the remediation block raise that error. -/
theorem remediate_err_of_restart (w : World) (outs : List Bool) (s : String)
    (e : PyErr) (hset : (set_ciphers w s cipher_list).2 = Except.ok ())
    (hcmt : (commit_config w).2 = Except.ok ())
    (h : (restart_service w s).2 = Except.error e) :
    (remediate w outs s).2.2 = Except.error e := by
  unfold remediate
  rcases hs : set_ciphers w s cipher_list with ⟨ev2, r2⟩
  have hr2 : r2 = Except.ok () := by rw [hs] at hset; exact hset
  subst hr2
  rcases hc : commit_config w with ⟨ev3, r3⟩
  have hr3 : r3 = Except.ok () := by rw [hc] at hcmt; exact hcmt
  subst hr3
  rcases hrs : restart_service w s with ⟨ev4, r4⟩
  have hr4 : r4 = Except.error e := by rw [hrs] at h; exact h
  subst hr4
  rfl

/-- Full computation of a loop iteration whose status is
`'ciphers_not_set'`, in terms of the remediation block. -/
theorem processService_not_set_eq (w : World) (outs : List Bool)
    (acc : List String) (s : String) (scl : List String)
    (hc2 : (check_ciphers w s).2 = Except.ok scl)
    (hns : (compare_ciphers cipher_list s scl acc).2 = "ciphers_not_set") :
    processService w outs acc s =
      (Event.getOp (base_xpath s) :: (remediate w outs s).1,
       (remediate w outs s).2.1,
       match (remediate w outs s).2.2 with
       | Except.error e => Except.error e
       | Except.ok _ => Except.ok (acc ++ ["ciphers_not_set"])) := by
  unfold processService
  rw [check_ciphers_pair w s scl hc2]
  split
  next rl2 status hcmp => simp at hcmp
  next ev1 scl2 heq =>
    have hev1 : ev1 = [Event.getOp (base_xpath s)] := by
      have := congrArg Prod.fst heq
      simpa using this.symm
    have hscl2 : scl2 = scl := by
      have := congrArg Prod.snd heq
      simpa using this.symm
    subst hev1
    subst hscl2
    split
    next rl2 status hcmp =>
      have hstat : status = "ciphers_not_set" := by
        have := congrArg Prod.snd hcmp
        simp at this
        rw [← this]
        exact hns
      have hrl2 : rl2 = acc ++ ["ciphers_not_set"] := by
        have hf := compare_ciphers_fst cipher_list s scl2 acc
        rw [hcmp] at hf
        simp at hf
        rw [hf, hstat]
      rw [if_pos hstat]
      rcases hrem : remediate w outs s with ⟨ev2, o2, r2⟩
      cases r2 <;> simp [hrem, hrl2]

/-- A raising remediation step is the result of that loop iteration. -/
theorem processService_err_of_remediate (w : World) (outs : List Bool)
    (acc : List String) (s : String) (e : PyErr)
    (hstatus : auditStatus w s = some "ciphers_not_set")
    (hrem : (remediate w outs s).2.2 = Except.error e) :
    (processService w outs acc s).2.2 = Except.error e := by
  obtain ⟨scl, hc2, hns⟩ := auditStatus_not_set_elim w s hstatus
  rw [processService_not_set_eq w outs acc s scl hc2 (hns acc)]
  simp [hrem]

/-- C8: every error raised while processing a service propagates
uncaught — a raising add-cipher write, commit or service restart becomes
the iteration's error, a raising iteration becomes the loop's error, and
a loop error becomes the run's result, stopping the run with no system
restart.  The only local catch sits around the final system-restart
command: a raising command there is suppressed and turned into forced
process exit, so a run whose loop completed never ends in a raised
error. -/
theorem c8_error_propagation_and_final_suppression :
    (∀ w s outs acc e, auditStatus w s = some "ciphers_not_set" →
      (set_ciphers w s cipher_list).2 = Except.error e →
      (processService w outs acc s).2.2 = Except.error e) ∧
    (∀ w s outs acc e, auditStatus w s = some "ciphers_not_set" →
      (set_ciphers w s cipher_list).2 = Except.ok () →
      (commit_config w).2 = Except.error e →
      (processService w outs acc s).2.2 = Except.error e) ∧
    (∀ w s outs acc e, auditStatus w s = some "ciphers_not_set" →
      (set_ciphers w s cipher_list).2 = Except.ok () →
      (commit_config w).2 = Except.ok () →
      (restart_service w s).2 = Except.error e →
      (processService w outs acc s).2.2 = Except.error e) ∧
    (∀ w e ev o, processService w w.connectOutcomes [] "mgmt" =
        (ev, o, Except.error e) → runServices w = (ev, o, Except.error e)) ∧
    (∀ w e ev1 o1 rl1 ev2 o2,
      processService w w.connectOutcomes [] "mgmt" = (ev1, o1, Except.ok rl1) →
      processService w o1 rl1 "ha" = (ev2, o2, Except.error e) →
      runServices w = (ev1 ++ ev2, o2, Except.error e)) ∧
    (∀ w ev o e, runServices w = (ev, o, Except.error e) →
      mainRun w = (Event.connectAttempt :: ev, Except.error e)) ∧
    (∀ w e, w.opResp systemRestartCmd = Except.error e →
      restart_system w = ([Event.opCmd systemRestartCmd], RunResult.exited)) ∧
    (∀ w ev o rl, runServices w = (ev, o, Except.ok rl) →
      ∃ r, (mainRun w).2 = Except.ok r) := by
  refine ⟨?_, ?_, ?_, ?_, ?_, ?_, ?_, ?_⟩
  · intro w s outs acc e hstatus hset
    exact processService_err_of_remediate w outs acc s e hstatus
      (remediate_err_of_set w outs s e hset)
  · intro w s outs acc e hstatus hset hcmt
    exact processService_err_of_remediate w outs acc s e hstatus
      (remediate_err_of_commit w outs s e hset hcmt)
  · intro w s outs acc e hstatus hset hcmt hrst
    exact processService_err_of_remediate w outs acc s e hstatus
      (remediate_err_of_restart w outs s e hset hcmt hrst)
  · intro w e ev o h
    unfold runServices
    rw [h]
  · intro w e ev1 o1 rl1 ev2 o2 h1 h2
    rw [runServices_eq_of_ok w ev1 o1 rl1 h1, h2]
  · intro w ev o e h
    exact mainRun_of_err w ev o e h
  · intro w e h
    unfold restart_system
    rw [h]
  · intro w ev o rl h
    by_cases hc : (pyListSet rl).contains "ciphers_not_set" = true
    · have hm := mainRun_of_ok_needed w ev o rl h hc
      exact ⟨(restart_system w).2, by rw [hm]⟩
    · have hcf : (pyListSet rl).contains "ciphers_not_set" = false := by
        revert hc
        cases (pyListSet rl).contains "ciphers_not_set" <;> simp
      exact ⟨RunResult.done, by rw [mainRun_of_ok_sat w ev o rl h hcf]⟩

/-- C8 witness: the propagation and suppression behaviours on concrete
scripted devices — a raising write, commit, service restart and audit
read each surface as the respective error, while a raising final system
restart is suppressed into forced exit, and a completed loop always
yields a normal run result. -/
theorem c8_witness :
    (processService w0setfail [] [] "mgmt").2.2 =
      Except.error (PyErr.deviceError "set failed") ∧
    (processService w0commitfail [] [] "mgmt").2.2 =
      Except.error (PyErr.deviceError "commit failed") ∧
    (processService w0svcrestartfail [] [] "mgmt").2.2 =
      Except.error (PyErr.deviceError "restart failed") ∧
    mainRun w0readfail = (Event.connectAttempt :: (runServices w0readfail).1,
      Except.error (PyErr.deviceError "read failed")) ∧
    runServices w0hafail = ([Event.getOp (base_xpath "mgmt")] ++
      [Event.getOp (base_xpath "ha")], [],
      Except.error (PyErr.deviceError "ha read failed")) ∧
    restart_system w0sysfail = ([Event.opCmd systemRestartCmd], RunResult.exited) ∧
    (∃ r, (mainRun w0need).2 = Except.ok r) := by
  obtain ⟨p1, p2, p3, p4, p5, p6, p7, p8⟩ :=
    c8_error_propagation_and_final_suppression
  refine ⟨?_, ?_, ?_, ?_, ?_, ?_, ?_⟩
  · exact p1 w0setfail "mgmt" [] [] (PyErr.deviceError "set failed")
      (by decide) (by decide)
  · exact p2 w0commitfail "mgmt" [] [] (PyErr.deviceError "commit failed")
      (by decide) (by decide) (by decide)
  · exact p3 w0svcrestartfail "mgmt" [] [] (PyErr.deviceError "restart failed")
      (by decide) (by decide) (by decide) (by decide)
  · exact p6 w0readfail (runServices w0readfail).1 (runServices w0readfail).2.1
      (PyErr.deviceError "read failed") (by decide)
  · exact p5 w0hafail (PyErr.deviceError "ha read failed")
      [Event.getOp (base_xpath "mgmt")] [] ["ciphers_set"]
      [Event.getOp (base_xpath "ha")] []
      (by decide) (by decide)
  · exact p7 w0sysfail (PyErr.deviceError "device rebooting") rfl
  · exact p8 w0need (runServices w0need).1 (runServices w0need).2.1
      ["ciphers_not_set", "ciphers_set"] (by decide)
